import Mathlib

/-!
Verification of the parameter-to-filter-graph mapper and the progress-stream
interpreter of a command-line video enhancer (Rust sources `src/filters.rs`,
`src/progress.rs`, with the thin call sites in `src/cli.rs` / `src/main.rs`).

Modelling conventions:
* Rust `f64` values are modelled as exact rationals `ℚ`.  Every comparison the
  mapper performs (against the tolerances `1e-6`, `1e-3`, `0.0005` and the
  range bounds `0.5` / `2.0`) is far from the rounding error of the `f64`
  computations on the inputs the claims are about, so the exact-rational model
  and the floating-point program take the same branches there.
* Rust machine integers (`u8`, `u32`, `u64`) are modelled as `Nat` together
  with the explicit range bound `< 2^w` where the width matters (parsing).
* Strings are modelled as Lean `String`s; the `format!` fixed-precision and
  default `Display` renderings of `f64` are modelled by `fmtFixed` and
  `displayFloat` below.
-/

namespace VideoEnhancer

/-- Left-pad a digit string with zeros up to width `k`. -/
def padZeros (k : Nat) (s : String) : String :=
  String.mk (List.replicate (k - s.length) '0') ++ s

/-- Fixed-precision decimal rendering of a nonnegative rational with `k`
digits after the point: models Rust's `format!` `{:.k}` on a nonnegative
`f64`.  Rounding is to the nearest multiple of `10^-k` (Rust rounds the
underlying binary value to nearest as well; none of the values the program
formats lies on a tie). -/
def fmtFixedNonneg (k : Nat) (q : ℚ) : String :=
  let n : Nat := (⌊q * (10 : ℚ) ^ k + 1/2⌋).toNat
  Nat.repr (n / 10 ^ k) ++ "." ++ padZeros k (Nat.repr (n % 10 ^ k))

/-- Models Rust's `{:.k}` formatting of an `f64`, signs included. -/
def fmtFixed (k : Nat) (q : ℚ) : String :=
  if q < 0 then "-" ++ fmtFixedNonneg k (-q) else fmtFixedNonneg k q

/-- Drop the trailing zero characters of a reversed digit list. -/
def stripZerosRev : List Char → List Char
  | '0' :: rest => stripZerosRev rest
  | cs => cs

/-- Drop a leading decimal point of a reversed digit list. -/
def stripDotRev : List Char → List Char
  | '.' :: rest => rest
  | cs => cs

/-- Remove trailing fractional zeros (and a then-trailing point) from a
fixed-precision decimal string. -/
def stripTrailingZeros (s : String) : String :=
  String.mk (stripDotRev (stripZerosRev s.toList.reverse)).reverse

/-- Models Rust's default `Display` of an `f64` (the shortest decimal string
that denotes the value): rendered as 17 fractional digits — enough for any
`f64` round-trip — with the trailing zeros stripped.  Used by the source in
`format!("setpts=PTS/{speed}")`. -/
def displayFloat (q : ℚ) : String :=
  stripTrailingZeros (fmtFixed 17 q)

/-- `Vec::<String>::join(",")` of the filter parts. -/
def joinComma : List String → String
  | [] => ""
  | [s] => s
  | s :: rest => s ++ "," ++ joinComma rest

/-- Models Rust's `str::parse` into an unsigned integer type whose excluded
upper bound is `limit` (`2^8` for `u8`, `2^32` for `u32`, `2^64` for `u64`):
an optional leading plus sign, then one or more ASCII digits, and the value
must fit the type; anything else is a parse error (`none`). -/
def parseUnsigned (limit : Nat) (s : String) : Option Nat :=
  let cs := s.toList
  let ds := match cs with
    | '+' :: rest => rest
    | _ => cs
  if ds = [] then none
  else if ds.all Char.isDigit then
    let v := ds.foldl (fun a c => a * 10 + (c.toNat - 48)) 0
    if v < limit then some v else none
  else none

/-! ### Parameter mapper — constants and knob normalisation (`src/filters.rs`) -/

def BRIGHTNESS_MAX : ℚ := 1/4

def CONTRAST_SPAN : ℚ := 1/4

def SAT_SPAN : ℚ := 1/4

def SHARP_MAX : ℚ := 1

def DENOISE_LUMA_MAX : ℚ := 9/5

def DENOISE_TEMP_MAX : ℚ := 9

/-- `validate_scale_height`: the string must parse as a `u32` that is positive
and even. -/
def validate_scale_height (raw : String) : Except String Nat :=
  match parseUnsigned (2 ^ 32) raw with
  | none => Except.error ("`" ++ raw ++ "` must be a positive even integer")
  | some parsed =>
    if parsed = 0 ∨ parsed % 2 ≠ 0 then
      Except.error ("scale height must be a positive even integer (e.g., 720, 480)")
    else Except.ok parsed

/-- `validate_percent_range`: the string must parse as a `u8` that is at
most 100. -/
def validate_percent_range (raw : String) : Except String Nat :=
  match parseUnsigned (2 ^ 8) raw with
  | none => Except.error ("`" ++ raw ++ "` must be an integer between 0 and 100")
  | some parsed =>
    if 100 < parsed then Except.error ("value must be between 0 and 100")
    else Except.ok parsed

/-- `pct_center_norm`: `(pct as f64 - 50.0) / 50.0`. -/
def pct_center_norm (pct : Nat) : ℚ := ((pct : ℚ) - 50) / 50

/-- Denoise luma strength `DENOISE_LUMA_MAX * norm` with the negative side
clamped off, as in the source's `(pct_center_norm(p)).max(0.0)`. -/
def denoiseLuma (p : Nat) : ℚ := DENOISE_LUMA_MAX * max (pct_center_norm p) 0

/-- Denoise temporal strength `DENOISE_TEMP_MAX * norm`, negative side
clamped off. -/
def denoiseTemporal (p : Nat) : ℚ := DENOISE_TEMP_MAX * max (pct_center_norm p) 0

/-- Sharpen amount `pct_center_norm(p) * SHARP_MAX`. -/
def sharpenAmount (p : Nat) : ℚ := pct_center_norm p * SHARP_MAX

/-- Contrast multiplier `1.0 + pct_center_norm(p) * CONTRAST_SPAN`. -/
def contrastMult (p : Nat) : ℚ := 1 + pct_center_norm p * CONTRAST_SPAN

/-- Saturation multiplier `1.0 + pct_center_norm(p) * SAT_SPAN`. -/
def saturationMult (p : Nat) : ℚ := 1 + pct_center_norm p * SAT_SPAN

/-- Brightness offset `pct_center_norm(p) * BRIGHTNESS_MAX`. -/
def brightnessOffset (p : Nat) : ℚ := pct_center_norm p * BRIGHTNESS_MAX

/-! ### Parameter mapper — video filter stages (`build_video_filters`)

The source pushes stages into a `Vec<String>` in a fixed order; each stage is
modelled by the list (empty or a singleton) it contributes. -/

/-- The `hqdn3d` stage contributed by the denoise knob: emitted only when the
clamped normalised value is strictly positive. -/
def denoisePart (denoise : Option Nat) : List String :=
  match denoise with
  | none => []
  | some p =>
    if 0 < max (pct_center_norm p) 0 then
      ["hqdn3d=" ++ fmtFixed 3 (denoiseLuma p) ++ ":" ++ fmtFixed 3 (denoiseLuma p) ++
        ":" ++ fmtFixed 3 (denoiseTemporal p) ++ ":" ++ fmtFixed 3 (denoiseTemporal p)]
    else []

/-- The `unsharp` stage contributed by the sharpen knob: emitted only when
`amt.abs() > 1e-6`. -/
def sharpenPart (sharpen : Option Nat) : List String :=
  match sharpen with
  | none => []
  | some p =>
    if 1/1000000 < |sharpenAmount p| then
      ["unsharp=luma_msize_x=7:luma_msize_y=7:luma_amount=" ++ fmtFixed 3 (sharpenAmount p)]
    else []

/-- Resolved contrast value and its `need_eq` flag: the multiplier is kept at
the neutral `1.0` unless it deviates from `1.0` by more than `1e-6`. -/
def eqContrastVal (contrast : Option Nat) : ℚ × Bool :=
  match contrast with
  | none => (1, false)
  | some p =>
    if 1/1000000 < |contrastMult p - 1| then (contrastMult p, true) else (1, false)

/-- Resolved saturation value and its `need_eq` flag. -/
def eqSaturationVal (saturation : Option Nat) : ℚ × Bool :=
  match saturation with
  | none => (1, false)
  | some p =>
    if 1/1000000 < |saturationMult p - 1| then (saturationMult p, true) else (1, false)

/-- Resolved brightness value and its `need_eq` flag: the offset is kept at
the neutral `0.0` unless its absolute value exceeds `1e-6`. -/
def eqBrightnessVal (brightness : Option Nat) : ℚ × Bool :=
  match brightness with
  | none => (0, false)
  | some p =>
    if 1/1000000 < |brightnessOffset p| then (brightnessOffset p, true) else (0, false)

/-- The single combined `eq` stage, emitted when any of the three colour
knobs set `need_eq`. -/
def eqPart (contrast saturation brightness : Option Nat) : List String :=
  if (eqContrastVal contrast).2 || (eqSaturationVal saturation).2 ||
      (eqBrightnessVal brightness).2 then
    ["eq=contrast=" ++ fmtFixed 6 (eqContrastVal contrast).1 ++
      ":saturation=" ++ fmtFixed 6 (eqSaturationVal saturation).1 ++
      ":brightness=" ++ fmtFixed 6 (eqBrightnessVal brightness).1]
  else []

/-- The `scale=-2:<h>` stage contributed by an explicit output height. -/
def scalePart (scale_height : Option Nat) : List String :=
  match scale_height with
  | none => []
  | some h => ["scale=-2:" ++ Nat.repr h]

/-- The `setpts` speed-retime stage, emitted when the speed factor deviates
from `1.0` by more than `0.0005`. -/
def speedPart (speed : ℚ) : List String :=
  if 1/2000 < |speed - 1| then ["setpts=PTS/" ++ displayFloat speed] else []

/-- `build_video_filters`: the comma-joined video filter graph, stages in the
source's push order denoise, sharpen, eq, scale, setpts. -/
def build_video_filters (speed : ℚ)
    (denoise scale_height sharpen contrast saturation brightness : Option Nat) : String :=
  joinComma (denoisePart denoise ++ sharpenPart sharpen ++
    eqPart contrast saturation brightness ++ scalePart scale_height ++ speedPart speed)

/-! ### Parameter mapper — audio tempo chain (`build_audio_filters`)

The source reduces the speed factor into the `atempo` range by two `while`
loops (`while s > 2.0 + 1e-6 { s /= 2.0 }` and `while s < 0.5 - 1e-6
{ s /= 0.5 }`).  They are modelled by well-founded recursion; the halving
loop terminates for every rational, the doubling loop for every positive
one (for a factor `≤ 0` the source loop would never exit, but every call
site validates `speed > 0` first, in `src/cli.rs` and `src/main.rs`). -/

theorem ceil_half_lt {s : ℚ} (hs : 2 < s) : Nat.ceil (s / 2) < Nat.ceil s := by
  have hle : s ≤ (Nat.ceil s : ℚ) := Nat.le_ceil s
  have hc2 : (2 : ℚ) < (Nat.ceil s : ℚ) := lt_of_lt_of_le hs hle
  have hc3 : 3 ≤ Nat.ceil s := by exact_mod_cast hc2
  have h1 : Nat.ceil (s / 2) ≤ Nat.ceil s - 1 := by
    rw [Nat.ceil_le]
    have hcast : ((Nat.ceil s - 1 : Nat) : ℚ) = (Nat.ceil s : ℚ) - 1 := by
      push_cast [Nat.cast_sub (by omega : 1 ≤ Nat.ceil s)]
      ring
    rw [hcast]
    linarith
  omega

theorem ceil_inv_double_lt {s : ℚ} (h1 : 0 < s) (h2 : s < 1/2 - 1/1000000) :
    Nat.ceil (1 / (s / (1/2))) < Nat.ceil (1/s) := by
  have h2' : (2 : ℚ) < 1/s := by
    rw [lt_div_iff₀ h1]
    linarith
  have hrw : 1 / (s / (1/2)) = 1/s/2 := by
    field_simp
  rw [hrw]
  exact ceil_half_lt h2'

/-- The `2.0×`-stage loop: returns the pushed stages and the remaining
factor. -/
def atempoHalve (s : ℚ) : List String × ℚ :=
  if h : 2 + 1/1000000 < s then
    ("atempo=2.0" :: (atempoHalve (s / 2)).1, (atempoHalve (s / 2)).2)
  else ([], s)
termination_by Nat.ceil s
decreasing_by
  exact ceil_half_lt (by linarith)

/-- The `0.5×`-stage loop: returns the pushed stages and the remaining
factor (modelled for the positive factors the program feeds it). -/
def atempoDouble (s : ℚ) : List String × ℚ :=
  if h : 0 < s ∧ s < 1/2 - 1/1000000 then
    ("atempo=0.5" :: (atempoDouble (s / (1/2))).1, (atempoDouble (s / (1/2))).2)
  else ([], s)
termination_by Nat.ceil (1/s)
decreasing_by
  exact ceil_inv_double_lt h.1 h.2

/-- The range-reduction step of `build_audio_filters`: the outer
`if s > 2.0 { … } else if s < 0.5 { … }`. -/
def rangeReduce (speed : ℚ) : List String × ℚ :=
  if 2 < speed then atempoHalve speed
  else if speed < 1/2 then atempoDouble speed
  else ([], speed)

/-- The full `atempo` chain of `build_audio_filters`: the range-reduction
stages plus, when the remaining factor still deviates from `1.0` by more
than `1e-3`, one final `atempo` stage at that factor (6 decimals). -/
def audioChain (speed : ℚ) : List String :=
  if 1/1000 < |(rangeReduce speed).2 - 1| then
    (rangeReduce speed).1 ++ ["atempo=" ++ fmtFixed 6 (rangeReduce speed).2]
  else (rangeReduce speed).1

/-- `build_audio_filters`: no filter and stream-copy codec arguments when the
speed is within `0.001` of `1.0`; otherwise the comma-joined tempo chain and
the fixed re-encode arguments. -/
def build_audio_filters (speed : ℚ) : Option String × List String :=
  if |speed - 1| < 1/1000 then (none, ["-c:a", "copy"])
  else (some (joinComma (audioChain speed)), ["-c:a", "aac", "-b:a", "192k"])

/-! ### Progress stream interpreter (`src/progress.rs`)

`pump_progress` reads `key=value` lines matching the regex
`^(\w+)=([\w\-\.:]+)$` from the encoder's stdout and drives a spinner and a
progress bar (`indicatif`).  The UI pair is modelled as a record of the
bar position, the two messages, the precomputed total and the finished
flag; `finish_with_message` sets the bar to its total and marks it
finished.  The word/value character classes are modelled on the ASCII
subset the progress protocol emits. -/

def isWordChar (c : Char) : Bool := c.isAlphanum || c = '_'

def isValChar (c : Char) : Bool := isWordChar c || c = '-' || c = '.' || c = ':'

/-- Split a line at its first `=`, returning the parts before and after. -/
def splitEq : List Char → Option (List Char × List Char)
  | [] => none
  | c :: cs =>
    if c = '=' then some ([], cs)
    else
      match splitEq cs with
      | none => none
      | some (k, v) => some (c :: k, v)

/-- Models a match of `^(\w+)=([\w\-\.:]+)$` against a whole line: a
nonempty word-character key, a single `=`, and a nonempty value of
word/dash/dot/colon characters (neither class contains `=`, so a line with
two `=` never matches). -/
def matchKV (line : String) : Option (String × String) :=
  match splitEq line.toList with
  | none => none
  | some (k, v) =>
    if k ≠ [] ∧ v ≠ [] ∧ k.all isWordChar ∧ v.all isValChar then
      some (String.mk k, String.mk v)
    else none

/-- The UI state owned by the progress consumer: the bar position, the two
visible messages, the precomputed total and the completion flag. -/
structure ProgressUi where
  total_ms : Nat
  position : Nat
  spinnerMsg : String
  barMsg : String
  finished : Bool
deriving DecidableEq

/-- `ProgressUi::new`: initial spinner/bar messages for a given total. -/
def ProgressUi.new (total_ms : Nat) (audio_time_stretch : Bool) : ProgressUi :=
  { total_ms := total_ms
    position := 0
    spinnerMsg := "Preparing."
    barMsg := if audio_time_stretch then "Audio will be time-stretched (atempo)..."
      else "Building filter graph."
    finished := false }

/-- `ProgressUi::update_stage`: set the bar position and derive the coarse
stage label from the fraction `pos_ms / total_ms`. -/
def ProgressUi.update_stage (ui : ProgressUi) (pos_ms : Nat) : ProgressUi :=
  let pct : ℚ := (pos_ms : ℚ) / (ui.total_ms : ℚ)
  if pct < 1/10 then
    { ui with
      position := pos_ms
      spinnerMsg := "Preparing filters."
      barMsg := "Applying selected filters (if any)..." }
  else if pct < 13/20 then
    { ui with
      position := pos_ms
      spinnerMsg := "Encoding video."
      barMsg := "Processing frames..." }
  else if pct < 19/20 then
    { ui with
      position := pos_ms
      spinnerMsg := "Adjusting/encoding audio."
      barMsg := "Applying atempo (if speed != 1.0)..." }
  else
    { ui with
      position := pos_ms
      spinnerMsg := "Finalizing and muxing."
      barMsg := "Muxing, writing headers, closing output..." }

/-- `ProgressUi::finish`: `finish_with_message` on both bars — the bar
jumps to its total, both messages are replaced, and the pair is marked
finished. -/
def ProgressUi.finish (ui : ProgressUi) : ProgressUi :=
  { ui with
    position := ui.total_ms
    barMsg := "Done"
    spinnerMsg := "Completed"
    finished := true }

/-- Handling of a single line of the progress stream: unmatched lines are
ignored; `out_time_ms` parses the value as a `u64` (malformed → 0),
integer-divides by 1000, clamps to the total and updates the stage;
`progress=end` finishes the UI; all other keys are ignored. -/
def pumpStep (ui : ProgressUi) (line : String) : ProgressUi :=
  match matchKV line with
  | none => ui
  | some kv =>
    if kv.1 = "out_time_ms" then
      ui.update_stage (min ((parseUnsigned (2 ^ 64) kv.2).getD 0 / 1000) ui.total_ms)
    else if kv.1 = "progress" ∧ kv.2 = "end" then
      ui.finish
    else ui

/-- `pump_progress`'s reader loop over the whole stream: each item of the
stream either delivers a line or fails with an I/O error (`reader.lines()`
yielding `Err`), which `let line = line?` propagates immediately;
otherwise the final UI state is returned with `Ok`. -/
def pump_progress : List (Except String String) → ProgressUi → Except String ProgressUi
  | [], ui => Except.ok ui
  | Except.error e :: _, _ => Except.error e
  | Except.ok line :: rest, ui => pump_progress rest (pumpStep ui line)

/-- A dyadic rational: the exact value of some binary floating-point
number.  Every `f64` the program can feed to `build_audio_filters` is of
this form. -/
def isDyadic (q : ℚ) : Prop := ∃ m : ℤ, ∃ k : ℕ, q = (m : ℚ) / 2 ^ k

/-! ### Evaluation lemmas for the formatting model -/

theorem fmtFixedNonneg_eval (k : Nat) (q : ℚ) (n : Nat)
    (h : ⌊q * (10 : ℚ) ^ k + 1/2⌋ = (n : ℤ)) :
    fmtFixedNonneg k q =
      Nat.repr (n / 10 ^ k) ++ "." ++ padZeros k (Nat.repr (n % 10 ^ k)) := by
  unfold fmtFixedNonneg
  rw [h]
  simp

theorem fmtFixed_eval (k : Nat) (q : ℚ) (n : Nat) (h0 : ¬ q < 0)
    (h : ⌊q * (10 : ℚ) ^ k + 1/2⌋ = (n : ℤ)) :
    fmtFixed k q =
      Nat.repr (n / 10 ^ k) ++ "." ++ padZeros k (Nat.repr (n % 10 ^ k)) := by
  unfold fmtFixed
  rw [if_neg h0, fmtFixedNonneg_eval k q n h]

theorem fmt6_three_halves : fmtFixed 6 (3/2 : ℚ) = "1.500000" := by
  rw [fmtFixed_eval 6 (3/2) 1500000 (by norm_num)
    (by rw [Int.floor_eq_iff]; push_cast; norm_num)]
  decide

theorem fmt6_four_fifths : fmtFixed 6 (4/5 : ℚ) = "0.800000" := by
  rw [fmtFixed_eval 6 (4/5) 800000 (by norm_num)
    (by rw [Int.floor_eq_iff]; push_cast; norm_num)]
  decide

theorem fmt6_five_fourths : fmtFixed 6 (5/4 : ℚ) = "1.250000" := by
  rw [fmtFixed_eval 6 (5/4) 1250000 (by norm_num)
    (by rw [Int.floor_eq_iff]; push_cast; norm_num)]
  decide

theorem displayFloat_five_fourths : displayFloat (5/4 : ℚ) = "1.25" := by
  unfold displayFloat
  rw [fmtFixed_eval 17 (5/4) 125000000000000000 (by norm_num)
    (by rw [Int.floor_eq_iff]; push_cast; norm_num)]
  decide

/-! ### Unfolding and bound lemmas for the tempo loops -/

theorem atempoHalve_cons {s : ℚ} (h : 2 + 1/1000000 < s) :
    atempoHalve s = ("atempo=2.0" :: (atempoHalve (s / 2)).1, (atempoHalve (s / 2)).2) := by
  rw [atempoHalve]
  rw [dif_pos h]

theorem atempoHalve_nil {s : ℚ} (h : ¬ 2 + 1/1000000 < s) : atempoHalve s = ([], s) := by
  rw [atempoHalve]
  rw [dif_neg h]

theorem atempoDouble_cons {s : ℚ} (h : 0 < s ∧ s < 1/2 - 1/1000000) :
    atempoDouble s =
      ("atempo=0.5" :: (atempoDouble (s / (1/2))).1, (atempoDouble (s / (1/2))).2) := by
  rw [atempoDouble]
  rw [dif_pos h]

theorem atempoDouble_nil {s : ℚ} (h : ¬ (0 < s ∧ s < 1/2 - 1/1000000)) :
    atempoDouble s = ([], s) := by
  rw [atempoDouble]
  rw [dif_neg h]

theorem atempoHalve_length (s : ℚ) : (atempoHalve s).1.length ≤ Nat.ceil s := by
  induction s using atempoHalve.induct with
  | case1 s h ih =>
    rw [atempoHalve_cons h]
    simp only [List.length_cons]
    have hlt : Nat.ceil (s/2) < Nat.ceil s := ceil_half_lt (by linarith)
    omega
  | case2 s h =>
    rw [atempoHalve_nil h]
    simp

theorem atempoDouble_length (s : ℚ) : (atempoDouble s).1.length ≤ Nat.ceil (1/s) := by
  induction s using atempoDouble.induct with
  | case1 s h ih =>
    rw [atempoDouble_cons h]
    simp only [List.length_cons]
    have hlt : Nat.ceil (1 / (s / (1/2))) < Nat.ceil (1/s) := ceil_inv_double_lt h.1 h.2
    omega
  | case2 s h =>
    rw [atempoDouble_nil h]
    simp

theorem atempoHalve_nil_snd {s : ℚ} (h : (atempoHalve s).1 = []) :
    (atempoHalve s).2 = s := by
  by_cases hc : 2 + 1/1000000 < s
  · rw [atempoHalve_cons hc] at h
    simp at h
  · rw [atempoHalve_nil hc]

theorem atempoDouble_nil_snd {s : ℚ} (h : (atempoDouble s).1 = []) :
    (atempoDouble s).2 = s := by
  by_cases hc : 0 < s ∧ s < 1/2 - 1/1000000
  · rw [atempoDouble_cons hc] at h
    simp at h
  · rw [atempoDouble_nil hc]

theorem rangeReduce_nil_snd {s : ℚ} (h : (rangeReduce s).1 = []) :
    (rangeReduce s).2 = s := by
  unfold rangeReduce at *
  split_ifs at h ⊢ with h1 h2
  · exact atempoHalve_nil_snd h
  · exact atempoDouble_nil_snd h
  · rfl

/-! ### Dyadic rationals: the values an `f64` speed can take -/

theorem isDyadic_div_two {s : ℚ} (h : isDyadic s) : isDyadic (s / 2) := by
  obtain ⟨m, k, rfl⟩ := h
  refine ⟨m, k + 1, ?_⟩
  rw [pow_succ]
  ring

theorem isDyadic_div_half {s : ℚ} (h : isDyadic s) : isDyadic (s / (1/2)) := by
  obtain ⟨m, k, rfl⟩ := h
  refine ⟨2 * m, k, ?_⟩
  push_cast
  ring

theorem atempoHalve_dyadic {s : ℚ} (h : isDyadic s) : isDyadic ((atempoHalve s).2) := by
  induction s using atempoHalve.induct with
  | case1 s hc ih =>
    rw [atempoHalve_cons hc]
    exact ih (isDyadic_div_two h)
  | case2 s hc =>
    rw [atempoHalve_nil hc]
    exact h

theorem atempoDouble_dyadic {s : ℚ} (h : isDyadic s) : isDyadic ((atempoDouble s).2) := by
  induction s using atempoDouble.induct with
  | case1 s hc ih =>
    rw [atempoDouble_cons hc]
    exact ih (isDyadic_div_half h)
  | case2 s hc =>
    rw [atempoDouble_nil hc]
    exact h

theorem rangeReduce_dyadic {s : ℚ} (h : isDyadic s) : isDyadic ((rangeReduce s).2) := by
  unfold rangeReduce
  split_ifs
  · exact atempoHalve_dyadic h
  · exact atempoDouble_dyadic h
  · exact h

theorem isDyadic_sub_one {q : ℚ} (h : isDyadic q) : isDyadic (q - 1) := by
  obtain ⟨m, k, rfl⟩ := h
  refine ⟨m - 2 ^ k, k, ?_⟩
  have h2 : ((2 : ℚ)) ^ k ≠ 0 := by positivity
  push_cast
  field_simp

/-- No binary floating-point value has absolute value exactly `1/1000`:
`1000` has the prime factor `5`, a power of two does not. -/
theorem isDyadic.abs_ne_thousandth {q : ℚ} (h : isDyadic q) : |q| ≠ 1/1000 := by
  obtain ⟨m, k, rfl⟩ := h
  intro habs
  have hpow : (0 : ℚ) < 2 ^ k := by positivity
  rw [abs_div, abs_of_pos hpow] at habs
  have hq : |(m : ℚ)| * 1000 = 2 ^ k := by
    field_simp at habs
    linarith
  rw [← Int.cast_abs] at hq
  have hz : |m| * 1000 = 2 ^ k := by exact_mod_cast hq
  have h5 : (5 : ℤ) ∣ 2 ^ k := ⟨|m| * 200, by rw [← hz]; ring⟩
  have h5n : (5 : ℕ) ∣ 2 ^ k := by
    have hcast : ((2 ^ k : ℕ) : ℤ) = (2 : ℤ) ^ k := by push_cast; ring
    rw [← hcast] at h5
    exact_mod_cast h5
  have h52 : (5 : ℕ) ∣ 2 := Nat.Prime.dvd_of_dvd_pow (by norm_num) h5n
  norm_num at h52

/-! ### Concrete evaluations of the audio chain -/

theorem rangeReduce_three : rangeReduce 3 = (["atempo=2.0"], 3/2) := by
  unfold rangeReduce
  rw [if_pos (by norm_num : (2:ℚ) < 3)]
  rw [atempoHalve_cons (by norm_num : (2:ℚ) + 1/1000000 < 3)]
  have e1 : (3 : ℚ) / 2 = 3/2 := by norm_num
  rw [e1, atempoHalve_nil (by norm_num : ¬ (2:ℚ) + 1/1000000 < 3/2)]

theorem rangeReduce_fifth : rangeReduce (1/5) = (["atempo=0.5", "atempo=0.5"], 4/5) := by
  unfold rangeReduce
  rw [if_neg (by norm_num : ¬ (2:ℚ) < 1/5)]
  rw [if_pos (by norm_num : (1:ℚ)/5 < 1/2)]
  rw [atempoDouble_cons (by constructor <;> norm_num)]
  have e1 : (1 : ℚ) / 5 / (1/2) = 2/5 := by norm_num
  rw [e1, atempoDouble_cons (by constructor <;> norm_num)]
  have e2 : (2 : ℚ) / 5 / (1/2) = 4/5 := by norm_num
  rw [e2, atempoDouble_nil (by norm_num : ¬ ((0:ℚ) < 4/5 ∧ (4:ℚ)/5 < 1/2 - 1/1000000))]

theorem rangeReduce_five_fourths : rangeReduce (5/4) = ([], 5/4) := by
  unfold rangeReduce
  rw [if_neg (by norm_num : ¬ (2:ℚ) < 5/4), if_neg (by norm_num : ¬ (5:ℚ)/4 < 1/2)]

theorem audioChain_three : audioChain 3 = ["atempo=2.0", "atempo=1.500000"] := by
  have h1 : (rangeReduce 3).1 = ["atempo=2.0"] := by rw [rangeReduce_three]
  have h2 : (rangeReduce 3).2 = 3/2 := by rw [rangeReduce_three]
  unfold audioChain
  rw [h1, h2]
  rw [if_pos (by
    rw [show (3:ℚ)/2 - 1 = 1/2 by norm_num, abs_of_pos (by norm_num : (0:ℚ) < 1/2)]
    norm_num)]
  rw [fmt6_three_halves]
  rfl

theorem audioChain_fifth :
    audioChain (1/5) = ["atempo=0.5", "atempo=0.5", "atempo=0.800000"] := by
  have h1 : (rangeReduce (1/5)).1 = ["atempo=0.5", "atempo=0.5"] := by rw [rangeReduce_fifth]
  have h2 : (rangeReduce (1/5)).2 = 4/5 := by rw [rangeReduce_fifth]
  unfold audioChain
  rw [h1, h2]
  rw [if_pos (by
    rw [show (4:ℚ)/5 - 1 = -(1/5) by norm_num, abs_neg,
      abs_of_pos (by norm_num : (0:ℚ) < 1/5)]
    norm_num)]
  rw [fmt6_four_fifths]
  rfl

theorem audioChain_five_fourths : audioChain (5/4) = ["atempo=1.250000"] := by
  have h1 : (rangeReduce (5/4)).1 = [] := by rw [rangeReduce_five_fourths]
  have h2 : (rangeReduce (5/4)).2 = 5/4 := by rw [rangeReduce_five_fourths]
  unfold audioChain
  rw [h1, h2]
  rw [if_pos (by
    rw [show (5:ℚ)/4 - 1 = 1/4 by norm_num, abs_of_pos (by norm_num : (0:ℚ) < 1/4)]
    norm_num)]
  rw [fmt6_five_fourths]
  rfl

/-! ### Helper lemmas for the progress interpreter -/

theorem splitEq_append (k v : List Char) (hk : ('=') ∉ k) :
    splitEq (k ++ '=' :: v) = some (k, v) := by
  induction k with
  | nil => simp [splitEq]
  | cons c cs ih =>
    have hc : ¬ (c = '=') := fun hh => hk (by simp [hh])
    have hcs : ('=') ∉ cs := fun hmem => hk (List.mem_cons_of_mem _ hmem)
    simp only [List.cons_append, splitEq]
    rw [if_neg hc, List.append_eq, ih hcs]

theorem string_toList_append (a b : String) : (a ++ b).toList = a.toList ++ b.toList := by
  cases a
  cases b
  rfl

theorem toList_ne_nil {v : String} (h : v ≠ "") : v.toList ≠ [] := by
  intro hnil
  apply h
  cases v with
  | mk data => cases data <;> simp_all [String.toList]

/-- A line `key=value` with a word-character key and a value drawn from the
value class matches the progress regex and captures the two parts. -/
theorem matchKV_eq (key val : String) (hk1 : key.toList ≠ [])
    (hk2 : key.toList.all isWordChar = true) (hknoeq : ('=') ∉ key.toList)
    (hv1 : val.toList ≠ []) (hv2 : val.toList.all isValChar = true) :
    matchKV (key ++ ("=") ++ val) = some (key, val) := by
  unfold matchKV
  have hsplit : (key ++ ("=") ++ val).toList = key.toList ++ '=' :: val.toList := by
    rw [string_toList_append, string_toList_append, List.append_assoc]
    rfl
  rw [hsplit, splitEq_append _ _ hknoeq]
  show (if key.toList ≠ [] ∧ val.toList ≠ [] ∧ key.toList.all isWordChar ∧
      val.toList.all isValChar then
      some (String.mk key.toList, String.mk val.toList) else none) = some (key, val)
  rw [if_pos ⟨hk1, hv1, hk2, hv2⟩]
  rfl

theorem pumpStep_out_time (ui : ProgressUi) (val : String)
    (h1 : val ≠ "") (h2 : val.toList.all isValChar = true) :
    pumpStep ui (("out_time_ms=") ++ val) =
      ui.update_stage (min ((parseUnsigned (2 ^ 64) val).getD 0 / 1000) ui.total_ms) := by
  unfold pumpStep
  rw [show (("out_time_ms=") ++ val) = ("out_time_ms") ++ ("=") ++ val from rfl]
  rw [matchKV_eq ("out_time_ms") val (by decide) (by decide) (by decide)
    (toList_ne_nil h1) h2]
  rfl

theorem pumpStep_end (ui : ProgressUi) : pumpStep ui ("progress=end") = ui.finish := rfl

theorem pumpStep_skip (ui : ProgressUi) {line : String} (h : matchKV line = none) :
    pumpStep ui line = ui := by
  unfold pumpStep
  rw [h]

theorem update_stage_position (ui : ProgressUi) (pos : Nat) :
    (ui.update_stage pos).position = pos := by
  simp only [ProgressUi.update_stage]
  split_ifs <;> rfl

theorem update_stage_preparing {ui : ProgressUi} {pos : Nat}
    (h : ((pos : ℚ)) / ((ui.total_ms : ℚ)) < 1/10) :
    (ui.update_stage pos).spinnerMsg = "Preparing filters." := by
  simp only [ProgressUi.update_stage]
  rw [if_pos h]

theorem update_stage_video {ui : ProgressUi} {pos : Nat}
    (h1 : 1/10 ≤ ((pos : ℚ)) / ((ui.total_ms : ℚ)))
    (h2 : ((pos : ℚ)) / ((ui.total_ms : ℚ)) < 13/20) :
    (ui.update_stage pos).spinnerMsg = "Encoding video." := by
  simp only [ProgressUi.update_stage]
  rw [if_neg (not_lt.2 h1), if_pos h2]

theorem update_stage_audio {ui : ProgressUi} {pos : Nat}
    (h1 : 13/20 ≤ ((pos : ℚ)) / ((ui.total_ms : ℚ)))
    (h2 : ((pos : ℚ)) / ((ui.total_ms : ℚ)) < 19/20) :
    (ui.update_stage pos).spinnerMsg = "Adjusting/encoding audio." := by
  simp only [ProgressUi.update_stage]
  rw [if_neg (not_lt.2 (le_trans (by norm_num) h1)), if_neg (not_lt.2 h1), if_pos h2]

theorem update_stage_finalizing {ui : ProgressUi} {pos : Nat}
    (h1 : 19/20 ≤ ((pos : ℚ)) / ((ui.total_ms : ℚ))) :
    (ui.update_stage pos).spinnerMsg = "Finalizing and muxing." := by
  simp only [ProgressUi.update_stage]
  rw [if_neg (not_lt.2 (le_trans (by norm_num) h1)),
    if_neg (not_lt.2 (le_trans (by norm_num) h1)), if_neg (not_lt.2 h1)]

/-! ### Neutral-value lemmas for the knobs -/

theorem pct_center_norm_fifty : pct_center_norm 50 = 0 := by
  unfold pct_center_norm
  norm_num

theorem denoisePart_neutral : denoisePart (some 50) = denoisePart none := by
  simp only [denoisePart]
  rw [pct_center_norm_fifty]
  norm_num

theorem sharpenPart_neutral : sharpenPart (some 50) = sharpenPart none := by
  simp only [sharpenPart]
  rw [show sharpenAmount 50 = 0 from by
    unfold sharpenAmount
    rw [pct_center_norm_fifty]
    ring]
  norm_num

theorem eqContrastVal_neutral : eqContrastVal (some 50) = eqContrastVal none := by
  simp only [eqContrastVal]
  rw [show contrastMult 50 = 1 from by
    unfold contrastMult
    rw [pct_center_norm_fifty]
    ring]
  norm_num

theorem eqSaturationVal_neutral : eqSaturationVal (some 50) = eqSaturationVal none := by
  simp only [eqSaturationVal]
  rw [show saturationMult 50 = 1 from by
    unfold saturationMult
    rw [pct_center_norm_fifty]
    ring]
  norm_num

theorem eqBrightnessVal_neutral : eqBrightnessVal (some 50) = eqBrightnessVal none := by
  simp only [eqBrightnessVal]
  rw [show brightnessOffset 50 = 0 from by
    unfold brightnessOffset
    rw [pct_center_norm_fifty]
    ring]
  norm_num

theorem speedPart_one : speedPart 1 = [] := by
  unfold speedPart
  norm_num

/-- Claim C2: every percentage knob (denoise, sharpen, contrast, saturation,
brightness) at exactly 50 contributes no filter stage — the result is the
same as leaving the knob unset — and with every knob unset and speed `1.0`
the video filter graph is the empty string. -/
theorem neutral_knobs_contribute_nothing :
    (∀ (speed : ℚ) (sc sh c sa b : Option Nat),
      build_video_filters speed (some 50) sc sh c sa b =
        build_video_filters speed none sc sh c sa b) ∧
    (∀ (speed : ℚ) (d sc c sa b : Option Nat),
      build_video_filters speed d sc (some 50) c sa b =
        build_video_filters speed d sc none c sa b) ∧
    (∀ (speed : ℚ) (d sc sh sa b : Option Nat),
      build_video_filters speed d sc sh (some 50) sa b =
        build_video_filters speed d sc sh none sa b) ∧
    (∀ (speed : ℚ) (d sc sh c b : Option Nat),
      build_video_filters speed d sc sh c (some 50) b =
        build_video_filters speed d sc sh c none b) ∧
    (∀ (speed : ℚ) (d sc sh c sa : Option Nat),
      build_video_filters speed d sc sh c sa (some 50) =
        build_video_filters speed d sc sh c sa none) ∧
    build_video_filters 1 none none none none none none = "" := by
  refine ⟨?_, ?_, ?_, ?_, ?_, ?_⟩
  · intro speed sc sh c sa b
    unfold build_video_filters
    rw [denoisePart_neutral]
  · intro speed d sc c sa b
    unfold build_video_filters
    rw [sharpenPart_neutral]
  · intro speed d sc sh sa b
    unfold build_video_filters eqPart
    rw [eqContrastVal_neutral]
  · intro speed d sc sh c b
    unfold build_video_filters eqPart
    rw [eqSaturationVal_neutral]
  · intro speed d sc sh c sa
    unfold build_video_filters eqPart
    rw [eqBrightnessVal_neutral]
  · unfold build_video_filters
    rw [speedPart_one]
    rfl

/-- Claim C3: `build_video_filters` emits its stages in the fixed order
denoise, sharpen, colour-eq, scale, speed-retime, comma-joined; every knob
contributes at most one stage; and with speed `1.25` alone the result is the
single stage `setpts=PTS/1.25`. -/
theorem video_filter_stage_order :
    (∀ (speed : ℚ) (d sc sh c sa b : Option Nat),
      build_video_filters speed d sc sh c sa b =
        joinComma (denoisePart d ++ sharpenPart sh ++ eqPart c sa b ++
          scalePart sc ++ speedPart speed)) ∧
    (∀ d, (denoisePart d).length ≤ 1) ∧
    (∀ sh, (sharpenPart sh).length ≤ 1) ∧
    (∀ c sa b, (eqPart c sa b).length ≤ 1) ∧
    (∀ sc, (scalePart sc).length ≤ 1) ∧
    (∀ speed, (speedPart speed).length ≤ 1) ∧
    build_video_filters (5/4) none none none none none none = "setpts=PTS/1.25" := by
  refine ⟨fun _ _ _ _ _ _ _ => rfl, ?_, ?_, ?_, ?_, ?_, ?_⟩
  · intro d
    cases d with
    | none => simp [denoisePart]
    | some p =>
      simp only [denoisePart]
      split_ifs <;> simp
  · intro sh
    cases sh with
    | none => simp [sharpenPart]
    | some p =>
      simp only [sharpenPart]
      split_ifs <;> simp
  · intro c sa b
    unfold eqPart
    split_ifs <;> simp
  · intro sc
    cases sc <;> simp [scalePart]
  · intro speed
    unfold speedPart
    split_ifs <;> simp
  · unfold build_video_filters
    rw [show speedPart (5/4) = ["setpts=PTS/" ++ displayFloat (5/4)] from by
      unfold speedPart
      rw [if_pos (by
        rw [show (5:ℚ)/4 - 1 = 1/4 by norm_num, abs_of_pos (by norm_num : (0:ℚ) < 1/4)]
        norm_num)]]
    rw [displayFloat_five_fourths]
    rfl

/-- Claim C9: every derived filter quantity — denoise luma and temporal
strengths, sharpen amount, contrast and saturation multipliers, brightness
offset — is monotone non-decreasing in the percentage over `[0, 100]`. -/
theorem knob_quantities_monotone :
    ∀ p1 p2 : Nat, p1 ≤ p2 → p2 ≤ 100 →
      denoiseLuma p1 ≤ denoiseLuma p2 ∧ denoiseTemporal p1 ≤ denoiseTemporal p2 ∧
      sharpenAmount p1 ≤ sharpenAmount p2 ∧ contrastMult p1 ≤ contrastMult p2 ∧
      saturationMult p1 ≤ saturationMult p2 ∧
      brightnessOffset p1 ≤ brightnessOffset p2 := by
  intro p1 p2 h12 _
  have hc : ((p1 : ℚ)) ≤ ((p2 : ℚ)) := by exact_mod_cast h12
  have hn : pct_center_norm p1 ≤ pct_center_norm p2 := by
    unfold pct_center_norm
    linarith
  have hmax : max (pct_center_norm p1) 0 ≤ max (pct_center_norm p2) 0 :=
    max_le_max hn le_rfl
  refine ⟨?_, ?_, ?_, ?_, ?_, ?_⟩
  · exact mul_le_mul_of_nonneg_left hmax (by unfold DENOISE_LUMA_MAX; norm_num)
  · exact mul_le_mul_of_nonneg_left hmax (by unfold DENOISE_TEMP_MAX; norm_num)
  · exact mul_le_mul_of_nonneg_right hn (by unfold SHARP_MAX; norm_num)
  · exact add_le_add_left (mul_le_mul_of_nonneg_right hn
      (by unfold CONTRAST_SPAN; norm_num)) 1
  · exact add_le_add_left (mul_le_mul_of_nonneg_right hn
      (by unfold SAT_SPAN; norm_num)) 1
  · exact mul_le_mul_of_nonneg_right hn (by unfold BRIGHTNESS_MAX; norm_num)

/-- Claim C9 witness at the pair `(25, 75)`. -/
theorem knob_quantities_monotone_wit :
    denoiseLuma 25 ≤ denoiseLuma 75 ∧ denoiseTemporal 25 ≤ denoiseTemporal 75 ∧
    sharpenAmount 25 ≤ sharpenAmount 75 ∧ contrastMult 25 ≤ contrastMult 75 ∧
    saturationMult 25 ≤ saturationMult 75 ∧ brightnessOffset 25 ≤ brightnessOffset 75 :=
  knob_quantities_monotone 25 75 (by norm_num) (by norm_num)

/-- Claim C10: on the band `0.0005 < |speed − 1| < 0.001` the video side
emits a `setpts` retime stage while the audio side stream-copies — the two
speed thresholds disagree. -/
theorem speed_threshold_band :
    ∀ s : ℚ, 1/2000 < |s - 1| → |s - 1| < 1/1000 →
      speedPart s = ["setpts=PTS/" ++ displayFloat s] ∧
      build_audio_filters s = (none, ["-c:a", "copy"]) := by
  intro s h1 h2
  constructor
  · unfold speedPart
    rw [if_pos h1]
  · unfold build_audio_filters
    rw [if_pos h2]

/-- Claim C10 witness at the spec's example speed `1.0008`. -/
theorem speed_threshold_band_wit :
    speedPart (1251/1250) = ["setpts=PTS/" ++ displayFloat (1251/1250)] ∧
    build_audio_filters (1251/1250) = (none, ["-c:a", "copy"]) :=
  speed_threshold_band (1251/1250)
    (by
      rw [show (1251:ℚ)/1250 - 1 = 1/1250 by norm_num,
        abs_of_pos (by norm_num : (0:ℚ) < 1/1250)]
      norm_num)
    (by
      rw [show (1251:ℚ)/1250 - 1 = 1/1250 by norm_num,
        abs_of_pos (by norm_num : (0:ℚ) < 1/1250)]
      norm_num)

/-- Claim C8: `validate_scale_height` succeeds exactly on strings parsing as
a positive, even `u32`; `validate_percent_range` succeeds exactly on strings
parsing as a `u8` of at most 100; both report an error otherwise. -/
theorem validators_correct :
    (∀ raw h, validate_scale_height raw = Except.ok h ↔
      parseUnsigned (2 ^ 32) raw = some h ∧ 0 < h ∧ h % 2 = 0) ∧
    (∀ raw, (∀ h, ¬ (parseUnsigned (2 ^ 32) raw = some h ∧ 0 < h ∧ h % 2 = 0)) →
      (validate_scale_height raw).isOk = false) ∧
    (∀ raw p, validate_percent_range raw = Except.ok p ↔
      parseUnsigned (2 ^ 8) raw = some p ∧ p ≤ 100) ∧
    (∀ raw, (∀ p, ¬ (parseUnsigned (2 ^ 8) raw = some p ∧ p ≤ 100)) →
      (validate_percent_range raw).isOk = false) := by
  refine ⟨?_, ?_, ?_, ?_⟩
  · intro raw h
    unfold validate_scale_height
    cases hp : parseUnsigned (2 ^ 32) raw with
    | none => simp
    | some v =>
      simp only [Option.some.injEq]
      split_ifs with hv
      · constructor
        · intro he
          exact absurd he (by simp)
        · rintro ⟨rfl, hpos, hmod⟩
          omega
      · push_neg at hv
        constructor
        · intro he
          have hvh : v = h := by
            injection he
          subst hvh
          exact ⟨rfl, by omega, hv.2⟩
        · rintro ⟨rfl, _, _⟩
          rfl
  · intro raw hno
    unfold validate_scale_height
    cases hp : parseUnsigned (2 ^ 32) raw with
    | none => rfl
    | some v =>
      have hv : v = 0 ∨ v % 2 ≠ 0 := by
        by_contra hcon
        push_neg at hcon
        exact hno v ⟨hp, by omega, hcon.2⟩
      show (if v = 0 ∨ v % 2 ≠ 0 then
          (Except.error ("scale height must be a positive even integer (e.g., 720, 480)")
            : Except String Nat)
        else Except.ok v).isOk = false
      rw [if_pos hv]
      rfl
  · intro raw p
    unfold validate_percent_range
    cases hp : parseUnsigned (2 ^ 8) raw with
    | none => simp
    | some v =>
      simp only [Option.some.injEq]
      split_ifs with hv
      · constructor
        · intro he
          exact absurd he (by simp)
        · rintro ⟨rfl, hle⟩
          omega
      · push_neg at hv
        constructor
        · intro he
          have hvh : v = p := by
            injection he
          subst hvh
          exact ⟨rfl, hv⟩
        · rintro ⟨rfl, _⟩
          rfl
  · intro raw hno
    unfold validate_percent_range
    cases hp : parseUnsigned (2 ^ 8) raw with
    | none => rfl
    | some v =>
      have hv : 100 < v := by
        by_contra hcon
        push_neg at hcon
        exact hno v ⟨hp, hcon⟩
      show (if 100 < v then
          (Except.error ("value must be between 0 and 100") : Except String Nat)
        else Except.ok v).isOk = false
      rw [if_pos hv]
      rfl

/-- Claim C8 witness: the non-numeric string `abc` and the odd string `7`
are rejected, and `720` is accepted. -/
theorem validators_correct_wit :
    (validate_scale_height ("abc")).isOk = false ∧
    (validate_scale_height ("720") = Except.ok 720 ↔
      parseUnsigned (2 ^ 32) ("720") = some 720 ∧ 0 < 720 ∧ 720 % 2 = 0) ∧
    (validate_percent_range ("101")).isOk = false :=
  ⟨validators_correct.2.1 ("abc") (fun h hc => by
      rw [show parseUnsigned (2 ^ 32) ("abc") = none from by decide] at hc
      exact absurd hc.1 (by simp)),
   validators_correct.1 ("720") 720,
   validators_correct.2.2.2 ("101") (fun p hc => by
      have hp : parseUnsigned (2 ^ 8) ("101") = some 101 := by decide
      rw [hp] at hc
      have : p = 101 := by
        have := hc.1
        injection this with h2
        omega
      omega)⟩

/-! ### Progress claims -/

theorem pumpStep_5000000 (ui : ProgressUi) (h : ui.total_ms = 10000) :
    pumpStep ui ("out_time_ms=5000000") = ui.update_stage 5000 := by
  rw [show ("out_time_ms=5000000" : String) = ("out_time_ms=") ++ ("5000000") from rfl]
  rw [pumpStep_out_time ui ("5000000") (by decide) (by decide)]
  rw [h]
  rw [show min ((parseUnsigned (2 ^ 64) ("5000000")).getD 0 / 1000) 10000 = 5000 from by
    decide]

/-- Claim C5: an `out_time_ms` line parses its value as an unsigned integer
(zero if malformed), divides by 1000 and clamps to the total; the stage label
follows the brackets of `position/total`; in particular with total 10000 ms
the line `out_time_ms=5000000` yields position 5000 and the encoding-video
stage. -/
theorem out_time_ms_interpretation :
    (∀ (ui : ProgressUi) (val : String), val ≠ "" → val.toList.all isValChar = true →
      pumpStep ui (("out_time_ms=") ++ val) =
        ui.update_stage (min ((parseUnsigned (2 ^ 64) val).getD 0 / 1000) ui.total_ms)) ∧
    (∀ (ui : ProgressUi) (pos : Nat), (ui.update_stage pos).position = pos ∧
      (((pos : ℚ)) / ((ui.total_ms : ℚ)) < 1/10 →
        (ui.update_stage pos).spinnerMsg = "Preparing filters.") ∧
      (1/10 ≤ ((pos : ℚ)) / ((ui.total_ms : ℚ)) →
        ((pos : ℚ)) / ((ui.total_ms : ℚ)) < 13/20 →
        (ui.update_stage pos).spinnerMsg = "Encoding video.") ∧
      (13/20 ≤ ((pos : ℚ)) / ((ui.total_ms : ℚ)) →
        ((pos : ℚ)) / ((ui.total_ms : ℚ)) < 19/20 →
        (ui.update_stage pos).spinnerMsg = "Adjusting/encoding audio.") ∧
      (19/20 ≤ ((pos : ℚ)) / ((ui.total_ms : ℚ)) →
        (ui.update_stage pos).spinnerMsg = "Finalizing and muxing.")) ∧
    (pumpStep (ProgressUi.new 10000 false) ("out_time_ms=5000000")).position = 5000 ∧
    (pumpStep (ProgressUi.new 10000 false) ("out_time_ms=5000000")).spinnerMsg =
      "Encoding video." := by
  have hstep := pumpStep_5000000 (ProgressUi.new 10000 false) rfl
  refine ⟨fun ui val h1 h2 => pumpStep_out_time ui val h1 h2, ?_, ?_, ?_⟩
  · intro ui pos
    exact ⟨update_stage_position ui pos,
      fun h => update_stage_preparing h,
      fun h1 h2 => update_stage_video h1 h2,
      fun h1 h2 => update_stage_audio h1 h2,
      fun h1 => update_stage_finalizing h1⟩
  · rw [hstep]
    exact update_stage_position _ _
  · rw [hstep]
    exact update_stage_video (by norm_num [ProgressUi.new]) (by norm_num [ProgressUi.new])

/-- Claim C5 witness: the general clauses applied at total 10000 ms and the
line `out_time_ms=5000000`. -/
theorem out_time_ms_interpretation_wit :
    pumpStep (ProgressUi.new 10000 false) (("out_time_ms=") ++ ("5000000")) =
      (ProgressUi.new 10000 false).update_stage
        (min ((parseUnsigned (2 ^ 64) ("5000000")).getD 0 / 1000)
          (ProgressUi.new 10000 false).total_ms) ∧
    ((ProgressUi.new 10000 false).update_stage 5000).spinnerMsg = "Encoding video." :=
  ⟨out_time_ms_interpretation.1 (ProgressUi.new 10000 false) ("5000000")
      (by decide) (by decide),
   (out_time_ms_interpretation.2.1 (ProgressUi.new 10000 false) 5000).2.2.1
      (by norm_num [ProgressUi.new]) (by norm_num [ProgressUi.new])⟩

/-- Claim C6 counterexample: after `progress=end` has finished the UI, a
subsequent `out_time_ms` line still undergoes stage inference — the spinner
message switches from `Completed` back to `Encoding video.`. -/
theorem progress_end_inference_cex :
    (pumpStep (pumpStep (ProgressUi.new 10000 false) ("progress=end"))
        ("out_time_ms=5000000")).spinnerMsg = "Encoding video." ∧
    (pumpStep (ProgressUi.new 10000 false) ("progress=end")).finished = true ∧
    (pumpStep (ProgressUi.new 10000 false) ("progress=end")).spinnerMsg =
      "Completed" := by
  have h1 : pumpStep (ProgressUi.new 10000 false) ("progress=end") =
      (ProgressUi.new 10000 false).finish := pumpStep_end _
  refine ⟨?_, by rw [h1]; rfl, by rw [h1]; rfl⟩
  rw [h1, pumpStep_5000000 _ rfl]
  exact update_stage_video (by norm_num [ProgressUi.new, ProgressUi.finish])
    (by norm_num [ProgressUi.new, ProgressUi.finish])

/-- Claim C6 (amended): on `progress=end` the consumer marks completion
(both bars finished, position at the total), but stage inference is not
stopped: any later `out_time_ms` line is still processed exactly as before,
updating the position and stage label. -/
theorem progress_end_marks_completion :
    (∀ ui : ProgressUi, pumpStep ui ("progress=end") = ui.finish) ∧
    (∀ ui : ProgressUi, (ui.finish).finished = true ∧
      (ui.finish).position = ui.total_ms) ∧
    (∀ (ui : ProgressUi) (val : String), val ≠ "" → val.toList.all isValChar = true →
      pumpStep ui (("out_time_ms=") ++ val) =
        ui.update_stage (min ((parseUnsigned (2 ^ 64) val).getD 0 / 1000) ui.total_ms)) :=
  ⟨fun ui => pumpStep_end ui, fun _ => ⟨rfl, rfl⟩,
   fun ui val h1 h2 => pumpStep_out_time ui val h1 h2⟩

/-- Claim C6 witness: the post-completion clause applied to the finished UI
and the line `out_time_ms=5000000`. -/
theorem progress_end_marks_completion_wit :
    pumpStep ((ProgressUi.new 10000 false).finish) (("out_time_ms=") ++ ("5000000")) =
      ((ProgressUi.new 10000 false).finish).update_stage
        (min ((parseUnsigned (2 ^ 64) ("5000000")).getD 0 / 1000)
          ((ProgressUi.new 10000 false).finish).total_ms) :=
  progress_end_marks_completion.2.2 ((ProgressUi.new 10000 false).finish) ("5000000")
    (by decide) (by decide)

/-- Claim C7: an I/O error in the stream is returned as a fatal error; a line
failing the `key=value` pattern is skipped with no state change and no error;
an unparsable `out_time_ms` value is treated as zero; an error-free stream
never fails. -/
theorem pump_progress_error_handling :
    (∀ (pre : List (Except String String)) (e : String)
        (rest : List (Except String String)) (ui : ProgressUi),
      (∀ l ∈ pre, ∃ s, l = Except.ok s) →
      pump_progress (pre ++ Except.error e :: rest) ui = Except.error e) ∧
    (∀ (ui : ProgressUi) (line : String), matchKV line = none → pumpStep ui line = ui) ∧
    (∀ (ui : ProgressUi) (val : String), val ≠ "" → val.toList.all isValChar = true →
      parseUnsigned (2 ^ 64) val = none →
      pumpStep ui (("out_time_ms=") ++ val) = ui.update_stage 0) ∧
    (∀ (lines : List (Except String String)) (ui : ProgressUi),
      (∀ l ∈ lines, ∃ s, l = Except.ok s) →
      ∃ ui2, pump_progress lines ui = Except.ok ui2) := by
  refine ⟨?_, ?_, ?_, ?_⟩
  · intro pre e rest ui hok
    induction pre generalizing ui with
    | nil => rfl
    | cons l pre ih =>
      obtain ⟨s, rfl⟩ := hok l (by simp)
      exact ih (pumpStep ui s) (fun l hl => hok l (by simp [hl]))
  · intro ui line h
    exact pumpStep_skip ui h
  · intro ui val h1 h2 hparse
    rw [pumpStep_out_time ui val h1 h2, hparse]
    simp
  · intro lines ui hok
    induction lines generalizing ui with
    | nil => exact ⟨ui, rfl⟩
    | cons l lines ih =>
      obtain ⟨s, rfl⟩ := hok l (by simp)
      exact ih (pumpStep ui s) (fun l hl => hok l (by simp [hl]))

/-- Claim C7 witness: an immediate I/O error, a skipped garbage line, an
unparsable numeric value, and a short error-free stream. -/
theorem pump_progress_error_handling_wit :
    pump_progress ([] ++ Except.error ("io") :: []) (ProgressUi.new 1 false) =
      Except.error ("io") ∧
    pumpStep (ProgressUi.new 1 false) ("no pattern here") = ProgressUi.new 1 false ∧
    pumpStep (ProgressUi.new 1 false) (("out_time_ms=") ++ ("12.5")) =
      (ProgressUi.new 1 false).update_stage 0 :=
  ⟨pump_progress_error_handling.1 [] ("io") [] (ProgressUi.new 1 false) (by simp),
   pump_progress_error_handling.2.1 (ProgressUi.new 1 false) ("no pattern here")
     (by decide),
   pump_progress_error_handling.2.2.1 (ProgressUi.new 1 false) ("12.5")
     (by decide) (by decide) (by decide)⟩

/-! ### Audio decomposition claims -/

/-- Claim C1 counterexample: at speed `0.2` the range-reduction loop runs
twice (`0.2 → 0.4 → 0.8`, since `0.4 < 0.5 − 1e-6` still holds), so the
chain is not one `0.5×` stage followed by a final stage at `0.4`. -/
theorem audioChain_fifth_cex :
    audioChain (1/5) ≠ ["atempo=0.5", "atempo=0.400000"] := by
  rw [audioChain_fifth]
  decide

/-- Claim C1 (amended): speed `3.0` decomposes into one `2.0×` stage and a
final stage at `1.5`; speed `0.2` decomposes into two `0.5×` stages and a
final stage at `0.8`; for every positive speed the range reduction performs
at most `⌈speed⌉` halvings and `⌈1/speed⌉` doublings (so it terminates); and
the residual stage is appended whenever the remaining factor deviates from
`1.0` by more than `1e-3`. -/
theorem audioChain_decomposition :
    audioChain 3 = ["atempo=2.0", "atempo=1.500000"] ∧
    audioChain (1/5) = ["atempo=0.5", "atempo=0.5", "atempo=0.800000"] ∧
    (∀ s : ℚ, 0 < s → (atempoHalve s).1.length ≤ Nat.ceil s ∧
      (atempoDouble s).1.length ≤ Nat.ceil (1/s)) ∧
    (∀ s : ℚ, 1/1000 < |(rangeReduce s).2 - 1| →
      audioChain s = (rangeReduce s).1 ++ ["atempo=" ++ fmtFixed 6 (rangeReduce s).2]) := by
  refine ⟨audioChain_three, audioChain_fifth, ?_, ?_⟩
  · intro s _
    exact ⟨atempoHalve_length s, atempoDouble_length s⟩
  · intro s h
    unfold audioChain
    rw [if_pos h]

/-- Claim C1 witness: the quantified clauses applied at speed `3`. -/
theorem audioChain_decomposition_wit :
    ((atempoHalve 3).1.length ≤ Nat.ceil (3 : ℚ) ∧
      (atempoDouble 3).1.length ≤ Nat.ceil ((1 : ℚ)/3)) ∧
    audioChain 3 = (rangeReduce 3).1 ++ ["atempo=" ++ fmtFixed 6 (rangeReduce 3).2] :=
  ⟨audioChain_decomposition.2.2.1 3 (by norm_num),
   audioChain_decomposition.2.2.2 3 (by
     rw [show (rangeReduce 3).2 = 3/2 from by rw [rangeReduce_three]]
     rw [show (3:ℚ)/2 - 1 = 1/2 by norm_num, abs_of_pos (by norm_num : (0:ℚ) < 1/2)]
     norm_num)⟩

/-- For a binary floating-point speed outside the copy band the tempo chain
is never empty: either the residual stage is appended, or the remaining
factor equals the input speed (no loop ran) and would have to sit at the
unrepresentable knife edge `|speed − 1| = 1/1000` for the residual stage to
be skipped. -/
theorem audioChain_ne_nil {s : ℚ} (hdy : isDyadic s) (h : ¬ |s - 1| < 1/1000) :
    audioChain s ≠ [] := by
  unfold audioChain
  split_ifs with hres
  · simp
  · intro hnil
    have h2 := rangeReduce_nil_snd hnil
    rw [h2] at hres
    have hne : |s - 1| ≠ 1/1000 := (isDyadic_sub_one hdy).abs_ne_thousandth
    push_neg at hres h
    exact hne (le_antisymm hres h)

/-- Claim C4: `build_audio_filters` returns no filter chain and the
stream-copy arguments exactly when the speed is within `0.001` of `1.0`; for
every other (binary floating-point) speed it returns a non-empty chain — at
`1.25` the single stage `atempo=1.250000` — and the fixed re-encode
arguments. -/
theorem build_audio_filters_copy_iff :
    (∀ s : ℚ, build_audio_filters s = (none, ["-c:a", "copy"]) ↔ |s - 1| < 1/1000) ∧
    (∀ s : ℚ, isDyadic s → ¬ |s - 1| < 1/1000 →
      (build_audio_filters s).1 = some (joinComma (audioChain s)) ∧
      audioChain s ≠ [] ∧
      (build_audio_filters s).2 = ["-c:a", "aac", "-b:a", "192k"]) ∧
    audioChain (5/4) = ["atempo=1.250000"] := by
  refine ⟨?_, ?_, audioChain_five_fourths⟩
  · intro s
    constructor
    · intro he
      by_contra hlt
      unfold build_audio_filters at he
      rw [if_neg hlt] at he
      exact absurd (congrArg Prod.fst he) (by simp)
    · intro hlt
      unfold build_audio_filters
      rw [if_pos hlt]
  · intro s hdy hlt
    unfold build_audio_filters
    rw [if_neg hlt]
    exact ⟨rfl, audioChain_ne_nil hdy hlt, rfl⟩

/-- Claim C4 witness: the re-encode clause applied at the dyadic speed
`1.25`, plus the copy clause at speed `1`. -/
theorem build_audio_filters_copy_iff_wit :
    ((build_audio_filters (5/4)).1 = some (joinComma (audioChain (5/4))) ∧
      audioChain (5/4) ≠ [] ∧
      (build_audio_filters (5/4)).2 = ["-c:a", "aac", "-b:a", "192k"]) ∧
    (build_audio_filters 1 = (none, ["-c:a", "copy"]) ↔ |(1 : ℚ) - 1| < 1/1000) :=
  ⟨build_audio_filters_copy_iff.2.1 (5/4) ⟨5, 2, by norm_num⟩
      (by
        rw [show (5:ℚ)/4 - 1 = 1/4 by norm_num,
          abs_of_pos (by norm_num : (0:ℚ) < 1/4)]
        norm_num),
   build_audio_filters_copy_iff.1 1⟩

end VideoEnhancer
